import Mathlib

/-!
Verification of the codescribe repository: a shallow embedding of the
customer CRUD accessors (`src/DB_agent/tools/*.py`), the database
setup/seeding routines (`src/DB_agent/database.py`), the CLI loop of
`src/DB_agent/agent.py`, and the OAuth2 credential helper
(`src/src/codescribe/oauth_helper.py`), together with theorems settling
the specification's claims about them.
-/

namespace Codescribe

/-! ## Data model

The `customers` table from `setup_database_schema`:
`id SERIAL PRIMARY KEY, email TEXT UNIQUE NOT NULL, full_name TEXT NOT NULL,
bio TEXT NOT NULL, created_at TIMESTAMP WITH TIME ZONE DEFAULT NOW()`.
`id` and `created_at` are server-assigned; we model them as `Option Nat`
so that "non-null" is a meaningful property of a returned row, and the
server state carries a next-id counter and a clock that assigns them on
insert. -/

structure Row where
  id : Option Nat
  email : String
  full_name : String
  bio : String
  created_at : Option Nat
deriving DecidableEq, Repr

structure DB where
  rows : List Row
  nextId : Nat
  now : Nat
deriving DecidableEq, Repr

/-- The error the store client raises on a violated unique constraint. -/
def uniqueViolationMsg : String :=
  "duplicate key value violates unique constraint \x7bcustomers_email_key\x7d"

/-- The row an insert constructs: the given columns plus the
server-assigned `id` (next value of the SERIAL sequence) and `created_at`
(the server clock `NOW()`). -/
def newRow (db : DB) (email full_name bio : String) : Row :=
  { id := some db.nextId, email := email, full_name := full_name,
    bio := bio, created_at := some db.now }

/-- A raw `INSERT INTO customers (email, full_name, bio) VALUES (...)`:
fails when the UNIQUE constraint on `email` is violated, otherwise appends
a row with server-assigned `id` and `created_at`. -/
def insertRow (db : DB) (email full_name bio : String) :
    Except String (DB × Row) :=
  if db.rows.any (fun r => r.email = email) then
    Except.error uniqueViolationMsg
  else
    let r : Row := newRow db email full_name bio
    Except.ok ({ db with rows := db.rows ++ [r], nextId := db.nextId + 1 }, r)

/-! ## The four accessors (`src/DB_agent/tools/`)

Each Python tool issues one filtered table operation via the supabase
client and returns its response; the response `data` is a list of rows.
A failed statement leaves the store unchanged, so each accessor returns
the (possibly updated) store state together with `Except` of the data. -/

/-- `create_customer` (`tools/create.py`):
`table("customers").insert({email, full_name, bio}).execute()`. -/
def create_customer (db : DB) (email full_name bio : String) :
    DB × Except String (List Row) :=
  match insertRow db email full_name bio with
  | Except.error e => (db, Except.error e)
  | Except.ok (db', r) => (db', Except.ok [r])

/-- `get_customer_by_email` (`tools/retrieve.py`):
`table("customers").select("*").eq("email", email).execute()`. -/
def get_customer_by_email (db : DB) (email : String) :
    DB × Except String (List Row) :=
  (db, Except.ok (db.rows.filter (fun r => r.email = email)))

/-- `update_customer_by_email` (`tools/update.py`):
`table("customers").update({full_name, bio}).eq("email", email).execute()`.
The response data is the list of updated rows; no match yields `[]`. -/
def update_customer_by_email (db : DB) (email full_name bio : String) :
    DB × Except String (List Row) :=
  let f : Row → Row := fun r =>
    if r.email = email then { r with full_name := full_name, bio := bio } else r
  ({ db with rows := db.rows.map f },
   Except.ok ((db.rows.filter (fun r => r.email = email)).map
     (fun r => { r with full_name := full_name, bio := bio })))

/-- `delete_customer_by_email` (`tools/delete.py`):
`table("customers").delete().eq("email", email).execute()`.
The response data is the list of deleted rows; no match yields `[]`. -/
def delete_customer_by_email (db : DB) (email : String) :
    DB × Except String (List Row) :=
  ({ db with rows := db.rows.filter (fun r => ¬ (r.email = email)) },
   Except.ok (db.rows.filter (fun r => r.email = email)))

/-! ## Database connection and seeding (`src/DB_agent/database.py`) -/

/-- A process environment: an association list of variable assignments,
mirroring `os.environ`. `envGet env k` is `os.environ.get(k)`. -/
def envGet (env : List (String × String)) (key : String) : Option String :=
  env.lookup key

/-- The keyword arguments `get_database_connection` passes to
`psycopg2.connect`. -/
structure ConnectArgs where
  host : String
  port : String
  database : String
  user : String
  password : Option String
deriving DecidableEq, Repr

/-- `get_database_connection` (`database.py` lines 12-32): connects with
`host="localhost"`, `port=os.environ.get("POSTGRES_PORT", "5432")`,
`database="postgres"`, `user="postgres"`,
`password=os.environ.get("POSTGRES_PASSWORD")`. -/
def get_database_connection (env : List (String × String)) : ConnectArgs :=
  { host := "localhost"
  , port := (envGet env "POSTGRES_PORT").getD "5432"
  , database := "postgres"
  , user := "postgres"
  , password := envGet env "POSTGRES_PASSWORD" }

/-- The three hardcoded sample rows of `seed_database`. -/
def sample_customers : List (String × String × String) :=
  [("johndoe@gmail.com", "John Doe", "I am a software engineer"),
   ("janedoe@gmail.com", "Jane Doe", "I am a data scientist"),
   ("jimdoe@gmail.com", "Jim Doe", "I am a product manager")]

/-- `cur.executemany("INSERT INTO customers ...", items)`: the inserts run
in sequence and the whole batch fails if any single insert fails (the
transaction is then not committed, so the store is unchanged). -/
def insertBatch (db : DB) : List (String × String × String) → Except String DB
  | [] => Except.ok db
  | (e, fn, b) :: rest =>
    match insertRow db e fn b with
    | Except.error msg => Except.error msg
    | Except.ok (db', _) => insertBatch db' rest

/-- `seed_database` (`database.py` lines 69-109): counts existing rows;
if the count is nonzero it is a no-op returning `True`; otherwise it
inserts the three sample rows in one batch and returns `True`, or `False`
if the statement fails (the uncommitted transaction leaves the store
unchanged). The connection-failure path (`return False` with no store
interaction) is outside this state model. -/
def seed_database (db : DB) : DB × Bool :=
  if db.rows.length > 0 then (db, true)
  else
    match insertBatch db sample_customers with
    | Except.ok db' => (db', true)
    | Except.error _ => (db, false)

/-! ## The CLI read-eval-print loop (`src/DB_agent/agent.py`, `main`) -/

/-- What one iteration of the `while True` loop in `main` does with the
line read from stdin. -/
inductive LoopAction where
  | quit
  | skip
  | runAgent (query : String)
deriving DecidableEq, Repr

/-- Python's `str.strip()`: remove leading and trailing whitespace
characters. -/
def pyStrip (s : String) : String :=
  ⟨((s.data.dropWhile Char.isWhitespace).reverse.dropWhile
      Char.isWhitespace).reverse⟩

/-- Python's `str.lower()`: lowercase each character. -/
def pyLower (s : String) : String :=
  ⟨s.data.map Char.toLower⟩

/-- One iteration of the interaction loop (`agent.py` lines 117-131):
`user_input = input(...).strip()`; if the lowercased input is one of
`quit`/`exit`/`q` the loop breaks; if the stripped input is empty the
loop `continue`s without running the agent; otherwise the agent runs on
the stripped input. -/
def loop_step (raw : String) : LoopAction :=
  let user_input := pyStrip raw
  if pyLower user_input = "quit" ∨ pyLower user_input = "exit" ∨
      pyLower user_input = "q" then
    LoopAction.quit
  else if user_input = "" then
    LoopAction.skip
  else
    LoopAction.runAgent user_input

/-! ## OAuth2 credential helper (`src/src/codescribe/oauth_helper.py`)

`OAuthHelper.get_credentials` interacts with the outside world through
four effectful operations: loading the token file, the refresh network
request, the interactive consent flow (`_run_oauth_flow`), and saving the
token file (`_save_credentials`). We model a run as a pure function of a
`World` that fixes the outcome of each operation, and record the
operations performed as a trace of events. -/

/-- A credential as the helper observes it: the `google.oauth2`
`Credentials` object's `valid`, `expired` and `refresh_token` attributes,
plus an opaque token payload identifying it. -/
structure Creds where
  valid : Bool
  expired : Bool
  hasRefreshToken : Bool
  token : String
deriving DecidableEq, Repr

/-- The observable side effects of `get_credentials`. -/
inductive OAuthEvent where
  | loadToken
  | refreshRequest
  | runOauthFlow
  | saveToken
deriving DecidableEq, Repr

/-- The environment of one `get_credentials` call: whether the token file
exists, and what each effectful operation would yield (`none` standing
for the exception/None paths the Python code catches). -/
structure OAuthWorld where
  tokenFileExists : Bool
  loadResult : Option Creds
  refreshResult : Option Creds
  flowResult : Option Creds
deriving DecidableEq, Repr

/-- `OAuthHelper.get_credentials` (`oauth_helper.py` lines 35-66): load
the token file if it exists (an exception leaves `creds = None`); if
`creds` is `None` or not valid, refresh when expired with a refresh token
(an exception resets `creds` to `None`), then run the interactive flow if
`creds` is still `None`; finally, if `creds` is non-None, save it and
return it, else return `None`. The returned trace lists the effectful
operations in order. -/
def get_credentials (w : OAuthWorld) : Option Creds × List OAuthEvent :=
  let load : Option Creds × List OAuthEvent :=
    if w.tokenFileExists then (w.loadResult, [OAuthEvent.loadToken])
    else (none, [])
  let step : Option Creds × List OAuthEvent :=
    match load.1 with
    | none => (w.flowResult, load.2 ++ [OAuthEvent.runOauthFlow])
    | some c =>
      if c.valid then (some c, load.2)
      else
        let refreshed : Option Creds × List OAuthEvent :=
          if c.expired && c.hasRefreshToken then
            (w.refreshResult, load.2 ++ [OAuthEvent.refreshRequest])
          else (some c, load.2)
        match refreshed.1 with
        | none => (w.flowResult, refreshed.2 ++ [OAuthEvent.runOauthFlow])
        | some c2 => (some c2, refreshed.2)
  match step.1 with
  | some c => (some c, step.2 ++ [OAuthEvent.saveToken])
  | none => (none, step.2)

/-! ## Concrete stores used to evaluate the theorems -/

/-- A concrete customer row. -/
def rowA : Row :=
  { id := some 1, email := "a@x.com", full_name := "A", bio := "bio1",
    created_at := some 5 }

/-- A concrete one-row store. -/
def dbA : DB := { rows := [rowA], nextId := 2, now := 6 }

/-- A concrete empty store. -/
def dbEmpty : DB := { rows := [], nextId := 1, now := 5 }

/-! ## Theorems -/

/-- C1: for every valid triple whose email is not already present,
`create_customer` followed by `get_customer_by_email` with the same email
returns exactly one record whose `full_name` and `bio` equal the given
values and whose identifier and creation timestamp are non-null. -/
theorem create_then_read (db : DB) (email full_name bio : String)
    (h : ∀ r ∈ db.rows, r.email ≠ email) :
    ∃ db' r,
      create_customer db email full_name bio = (db', Except.ok [r]) ∧
      (get_customer_by_email db' email).2 = Except.ok [r] ∧
      r.full_name = full_name ∧ r.bio = bio ∧
      r.id.isSome = true ∧ r.created_at.isSome = true := by
  have hany : db.rows.any (fun r => r.email = email) = false := by
    rw [List.any_eq_false]
    intro r hr
    simpa using h r hr
  have hfil : db.rows.filter (fun r => r.email = email) = [] := by
    rw [List.filter_eq_nil_iff]
    intro r hr
    simpa using h r hr
  have hc : create_customer db email full_name bio =
      ((create_customer db email full_name bio).1,
       Except.ok [newRow db email full_name bio]) := by
    simp [create_customer, insertRow, hany]
  refine ⟨(create_customer db email full_name bio).1,
    newRow db email full_name bio, hc, ?_, rfl, rfl, rfl, rfl⟩
  have h1 : (create_customer db email full_name bio).1.rows =
      db.rows ++ [newRow db email full_name bio] := by
    simp [create_customer, insertRow, hany]
  simp [get_customer_by_email, h1, List.filter_append, hfil, newRow]

/-- Witness for `create_then_read` at a concrete store and input. -/
theorem create_then_read_witness :
    ∃ db' r,
      create_customer dbEmpty "a@x.com" "A" "bio1" = (db', Except.ok [r]) ∧
      (get_customer_by_email db' "a@x.com").2 = Except.ok [r] ∧
      r.full_name = "A" ∧ r.bio = "bio1" ∧
      r.id.isSome = true ∧ r.created_at.isSome = true :=
  create_then_read dbEmpty "a@x.com" "A" "bio1"
    (by intro r hr; simp [dbEmpty] at hr)

/-- C2: creating a customer with an email that already exists fails with
the store's uniqueness-violation error and leaves the store state — in
particular the pre-existing row for that email — unchanged. -/
theorem create_duplicate_fails (db : DB) (email full_name bio : String)
    (h : ∃ r ∈ db.rows, r.email = email) :
    create_customer db email full_name bio =
      (db, Except.error uniqueViolationMsg) := by
  have hany : db.rows.any (fun r => r.email = email) = true := by
    rw [List.any_eq_true]
    obtain ⟨r, hr, he⟩ := h
    exact ⟨r, hr, by simpa using he⟩
  simp [create_customer, insertRow, hany]

/-- Witness for `create_duplicate_fails` at a concrete store. -/
theorem create_duplicate_fails_witness :
    create_customer dbA "a@x.com" "B" "bio2" =
      (dbA, Except.error uniqueViolationMsg) :=
  create_duplicate_fails dbA "a@x.com" "B" "bio2"
    ⟨rowA, by simp [dbA], by simp [rowA]⟩

/-- C3: updating a non-existent email raises no exception, returns an
empty affected-rows result, and leaves the entire store unchanged. -/
theorem update_missing_email_noop (db : DB) (email full_name bio : String)
    (h : ∀ r ∈ db.rows, r.email ≠ email) :
    update_customer_by_email db email full_name bio = (db, Except.ok []) := by
  have hfil : db.rows.filter (fun r => r.email = email) = [] := by
    rw [List.filter_eq_nil_iff]
    intro r hr
    simpa using h r hr
  have hmap : db.rows.map (fun r =>
      if r.email = email then { r with full_name := full_name, bio := bio }
      else r) = db.rows := by
    rw [show db.rows = db.rows.map id by simp]
    rw [List.map_map]
    apply List.map_congr_left
    intro r hr
    simp [h r hr]
  simp [update_customer_by_email, hfil, hmap]

/-- Witness for `update_missing_email_noop` at a concrete store. -/
theorem update_missing_email_noop_witness :
    update_customer_by_email dbA "b@x.com" "B" "bio2" =
      (dbA, Except.ok []) :=
  update_missing_email_noop dbA "b@x.com" "B" "bio2"
    (by intro r hr; simp [dbA] at hr; simp [hr, rowA])

/-- C4: deleting a non-existent email raises no exception and leaves the
entire store unchanged (a silent no-op with empty result). -/
theorem delete_missing_email_noop (db : DB) (email : String)
    (h : ∀ r ∈ db.rows, r.email ≠ email) :
    delete_customer_by_email db email = (db, Except.ok []) := by
  have hfil : db.rows.filter (fun r => r.email = email) = [] := by
    rw [List.filter_eq_nil_iff]
    intro r hr
    simpa using h r hr
  have hkeep : db.rows.filter (fun r => ¬ (r.email = email)) = db.rows := by
    rw [List.filter_eq_self]
    intro r hr
    simpa using h r hr
  simp only [delete_customer_by_email, hfil, hkeep]

/-- Witness for `delete_missing_email_noop` at a concrete store. -/
theorem delete_missing_email_noop_witness :
    delete_customer_by_email dbA "b@x.com" = (dbA, Except.ok []) :=
  delete_missing_email_noop dbA "b@x.com"
    (by intro r hr; simp [dbA] at hr; simp [hr, rowA])

/-- C5: `seed_database` is idempotent. From an empty customers table one
run reports success and inserts exactly the three sample rows, and a
second run is a no-op leaving the same three rows; more generally, on any
state with a nonzero row count it is a no-op that reports success. -/
theorem seed_database_idempotent (db : DB) :
    (db.rows = [] →
      (seed_database db).2 = true ∧
      (seed_database db).1.rows.map Row.email =
        ["johndoe@gmail.com", "janedoe@gmail.com", "jimdoe@gmail.com"] ∧
      seed_database (seed_database db).1 = ((seed_database db).1, true)) ∧
    (0 < db.rows.length → seed_database db = (db, true)) := by
  obtain ⟨rows, nextId, now⟩ := db
  constructor
  · intro h
    simp only at h
    subst h
    refine ⟨?_, ?_, ?_⟩ <;>
      simp [seed_database, insertBatch, insertRow, sample_customers, newRow]
  · intro h
    simp only at h
    simp [seed_database, h]

/-- Witness for `seed_database_idempotent` starting from an empty store. -/
theorem seed_database_idempotent_witness :
    (seed_database dbEmpty).2 = true ∧
    (seed_database dbEmpty).1.rows.map Row.email =
      ["johndoe@gmail.com", "janedoe@gmail.com", "jimdoe@gmail.com"] ∧
    seed_database (seed_database dbEmpty).1 =
      ((seed_database dbEmpty).1, true) :=
  (seed_database_idempotent dbEmpty).1 (by simp [dbEmpty])

/-- C6: `update_customer_by_email` modifies only the `full_name` and
`bio` of the row(s) matching the given email: every row's `email`, `id`
and `created_at` are unchanged, matching rows get the new name and bio,
and rows with a different email are completely unchanged. -/
theorem update_customer_frame (db : DB) (email full_name bio : String)
    (i : Nat) (r : Row) (hi : db.rows[i]? = some r) :
    ∃ r',
      (update_customer_by_email db email full_name bio).1.rows[i]? = some r' ∧
      r'.email = r.email ∧ r'.id = r.id ∧ r'.created_at = r.created_at ∧
      (r.email = email → r'.full_name = full_name ∧ r'.bio = bio) ∧
      (r.email ≠ email → r' = r) := by
  by_cases hc : r.email = email
  · refine ⟨{ r with full_name := full_name, bio := bio }, ?_, rfl, rfl, rfl,
      fun _ => ⟨rfl, rfl⟩, fun hne => absurd hc hne⟩
    simp [update_customer_by_email, hi, hc]
  · refine ⟨r, ?_, rfl, rfl, rfl, fun he => absurd he hc, fun _ => rfl⟩
    simp [update_customer_by_email, hi, hc]

/-- Witness for `update_customer_frame` on the one-row store. -/
theorem update_customer_frame_witness :
    ∃ r',
      (update_customer_by_email dbA "a@x.com" "A2" "bio2").1.rows[0]? =
        some r' ∧
      r'.email = rowA.email ∧ r'.id = rowA.id ∧
      r'.created_at = rowA.created_at ∧
      (rowA.email = "a@x.com" → r'.full_name = "A2" ∧ r'.bio = "bio2") ∧
      (rowA.email ≠ "a@x.com" → r' = rowA) :=
  update_customer_frame dbA "a@x.com" "A2" "bio2" 0 rowA (by simp [dbA])

/-- A concrete valid, non-expired credential. -/
def credC : Creds :=
  { valid := true, expired := false, hasRefreshToken := true, token := "tok" }

/-- A concrete world whose token file exists and loads as `credC`. -/
def worldCached : OAuthWorld :=
  { tokenFileExists := true, loadResult := some credC,
    refreshResult := none, flowResult := none }

/-- C7: when the token file exists and loads as a valid (non-expired)
credential, `get_credentials` returns that credential and its only side
effects are the load and the save-back: it never invokes the interactive
consent flow and never issues a refresh request. -/
theorem get_credentials_cached (w : OAuthWorld) (c : Creds)
    (hex : w.tokenFileExists = true)
    (hload : w.loadResult = some c)
    (hvalid : c.valid = true) :
    get_credentials w =
      (some c, [OAuthEvent.loadToken, OAuthEvent.saveToken]) ∧
    OAuthEvent.runOauthFlow ∉ (get_credentials w).2 ∧
    OAuthEvent.refreshRequest ∉ (get_credentials w).2 := by
  have hmain : get_credentials w =
      (some c, [OAuthEvent.loadToken, OAuthEvent.saveToken]) := by
    simp [get_credentials, hex, hload, hvalid]
  refine ⟨hmain, ?_, ?_⟩ <;> simp [hmain]

/-- Witness for `get_credentials_cached` at a concrete world. -/
theorem get_credentials_cached_witness :
    get_credentials worldCached =
      (some credC, [OAuthEvent.loadToken, OAuthEvent.saveToken]) ∧
    OAuthEvent.runOauthFlow ∉ (get_credentials worldCached).2 ∧
    OAuthEvent.refreshRequest ∉ (get_credentials worldCached).2 :=
  get_credentials_cached worldCached credC rfl rfl rfl

/-- C10: whenever `get_credentials` returns a non-None credential —
including when a still-valid credential was merely loaded from the token
file — the trace contains the token-file save; it returns None without
saving exactly when every acquisition stage failed. -/
theorem get_credentials_saves_on_success (w : OAuthWorld) :
    ((∃ c, (get_credentials w).1 = some c) →
      OAuthEvent.saveToken ∈ (get_credentials w).2) ∧
    ((get_credentials w).1 = none →
      OAuthEvent.saveToken ∉ (get_credentials w).2) := by
  obtain ⟨fe, lr, rr, fr⟩ := w
  cases fe <;>
    rcases lr with _ | ⟨(_ | _), (_ | _), (_ | _), lt⟩ <;>
    rcases rr with _ | rc <;>
    rcases fr with _ | fc <;>
    simp [get_credentials]

/-- Witness for `get_credentials_saves_on_success`: the cached world
returns a credential and its trace contains the save. -/
theorem get_credentials_saves_on_success_witness :
    OAuthEvent.saveToken ∈ (get_credentials worldCached).2 :=
  (get_credentials_saves_on_success worldCached).1 ⟨credC, rfl⟩

/-- A concrete environment assigning host, port, user and password. -/
def envFull : List (String × String) :=
  [("POSTGRES_HOST", "db.example.com"), ("POSTGRES_PORT", "6543"),
   ("POSTGRES_USER", "admin"), ("POSTGRES_PASSWORD", "hunter2")]

/-- C8 counterexample: in an environment that assigns a database host and
user, `get_database_connection` does not connect with them — the host is
hardcoded to `localhost` and the user to `postgres`, so the claim that
host, port, user and password are all taken from the environment is
false. -/
theorem get_database_connection_ignores_env_host_user :
    envGet envFull "POSTGRES_HOST" = some "db.example.com" ∧
    envGet envFull "POSTGRES_USER" = some "admin" ∧
    (get_database_connection envFull).host = "localhost" ∧
    (get_database_connection envFull).user = "postgres" ∧
    (get_database_connection envFull).host ≠ "db.example.com" ∧
    (get_database_connection envFull).user ≠ "admin" := by
  decide

/-- C8 (amended): `get_database_connection` takes only the port and
password from the environment (`POSTGRES_PORT`, defaulting to `5432`, and
`POSTGRES_PASSWORD`); the host, database and user are hardcoded to
`localhost`, `postgres` and `postgres`. -/
theorem get_database_connection_env_usage (env : List (String × String))
    (port pw : String)
    (hp : envGet env "POSTGRES_PORT" = some port)
    (hw : envGet env "POSTGRES_PASSWORD" = some pw) :
    (get_database_connection env).port = port ∧
    (get_database_connection env).password = some pw ∧
    (get_database_connection env).host = "localhost" ∧
    (get_database_connection env).user = "postgres" ∧
    (get_database_connection env).database = "postgres" ∧
    (∀ env', envGet env' "POSTGRES_PORT" = none →
      (get_database_connection env').port = "5432") := by
  refine ⟨?_, ?_, rfl, rfl, rfl, ?_⟩
  · simp [get_database_connection, hp]
  · simp [get_database_connection, hw]
  · intro env' h
    simp [get_database_connection, h]

/-- Witness for `get_database_connection_env_usage` at a concrete
environment. -/
theorem get_database_connection_env_usage_witness :
    (get_database_connection envFull).port = "6543" ∧
    (get_database_connection envFull).password = some "hunter2" ∧
    (get_database_connection envFull).host = "localhost" ∧
    (get_database_connection envFull).user = "postgres" ∧
    (get_database_connection envFull).database = "postgres" ∧
    (∀ env', envGet env' "POSTGRES_PORT" = none →
      (get_database_connection env').port = "5432") :=
  get_database_connection_env_usage envFull "6543" "hunter2"
    (by decide) (by decide)

/-- C9: every CLI input line that is empty or consists only of whitespace
after stripping is skipped by the interaction loop without running the
agent: the loop just continues to the next prompt. -/
theorem blank_input_skipped (raw : String) (h : pyStrip raw = "") :
    loop_step raw = LoopAction.skip := by
  unfold loop_step
  rw [h]
  decide

/-- Witness for `blank_input_skipped` on a whitespace-only line. -/
theorem blank_input_skipped_witness :
    loop_step "   " = LoopAction.skip :=
  blank_input_skipped "   " (by decide)

end Codescribe
